import Mathlib

/-!
# Soupy — shallow embedding and verification

A shallow embedding of the multi-strategy fetch / extraction / conversion
pipeline of the Soupy repository (src/core.py, src/fetchers.py,
src/extractors.py, src/converters.py, src/parsers.py, src/writers.py),
with theorems settling the frozen claims about it.

Conventions of the embedding:
* Python exceptions are values of `PyErr`; a computation that may raise is
  an `Except PyErr` value; a method with a catch-all `except` handler is a
  total function whose error branch mirrors what the handler does.
* The external DOM-parsing collaborator (bs4) is modelled by the `Node`
  tree type together with `getText` / `findAll` / `stripNoise`, which embed
  the documented behaviour of `get_text(sep, strip=True)`, `find_all(list)`
  and `decompose` that the repository's code relies on.  A function that in
  Python receives an HTML string and parses it receives here both the
  string (for the truthiness guards applied to it) and its parse tree.
* Scratch attributes stored on a strategy instance (`self.blocks`,
  `self.errors`) are passed explicitly as state.
* Exception message texts are embedded without the quote characters Python
  places around argument names (`Argument url ...` for `Argument "url" ...`);
  no claim depends on the exact message text.
-/

namespace Soupy

/-! ## Python string primitives

The embedding implements the string operations the source uses
(`str.strip`, `str.splitlines`, `str.join`, `str.startswith`,
`str.endswith`, truthiness) by structural recursion over the character
list, mirroring Python's semantics for the ASCII whitespace these inputs
contain. -/

/-- Python `str.strip()` (no argument): leading and trailing whitespace
removed.  `Char.isWhitespace` covers the ASCII whitespace appearing here. -/
def pyStrip (s : String) : String :=
  String.mk
    (((s.data.dropWhile Char.isWhitespace).reverse.dropWhile Char.isWhitespace).reverse)

/-- Python string truthiness: a string is falsy exactly when empty. -/
def pyTruthy (s : String) : Bool := s ≠ ""

/-- Python `sep.join(parts)`. -/
def pyJoin (sep : String) : List String → String
  | [] => ""
  | [s] => s
  | s :: rest => s ++ sep ++ pyJoin sep rest

/-- Python `str.splitlines()` for strings whose only line break is `"\n"`:
split at every newline, with no entry after a trailing newline and no entry
for the empty string. -/
def pySplitLinesChars : List Char → List (List Char)
  | [] => []
  | c :: rest =>
      if c = '\n' then [] :: pySplitLinesChars rest
      else
        match pySplitLinesChars rest with
        | [] => [[c]]
        | l :: ls => (c :: l) :: ls

/-- Python `str.splitlines()` (newline-only form). -/
def pySplitLines (s : String) : List String :=
  (pySplitLinesChars s.data).map String.mk

/-- Python `str.startswith(p)`. -/
def pyStartsWith (s p : String) : Bool := p.data.isPrefixOf s.data

/-- Python `str.endswith(p)`. -/
def pyEndsWith (s p : String) : Bool := p.data.isSuffixOf s.data

/-- Python `str.isdigit()` for the ASCII range. -/
def pyIsDigit (s : String) : Bool := s ≠ "" && s.data.all Char.isDigit

/-- Python `int(s)` on a string of ASCII digits. -/
def pyDigitsToNat (s : String) : Nat :=
  s.data.foldl (fun a c => a * 10 + (c.toNat - '0'.toNat)) 0

/-- A Python exception, carrying its class and message. -/
inductive PyErr where
  | valueError (msg : String)
  | typeError (msg : String)
  | runtimeError (msg : String)
deriving DecidableEq, Repr

/-- The message text of an exception, as `str(e)` renders it. -/
def errText : PyErr → String
  | .valueError m => m
  | .typeError m => m
  | .runtimeError m => m

/-- The `throw_if` guard of fetchers.py:62-73 (also extractors.py:60-62,
parsers.py:12-14, writers.py:49-51): raises ValueError exactly when the value
is falsy — for a string argument, when it is the empty string.  A
whitespace-only string is truthy and passes. -/
def throwIfFalsy (name s : String) : Except PyErr Unit :=
  if s = "" then .error (.valueError ("Argument " ++ name ++ " cannot be empty!"))
  else .ok ()

/-- The `throw_if` guard of converters.py:57-80 (same checks as core.py:49-70):
raises ValueError when the string is empty or whitespace-only. -/
def throwIfBlank (name s : String) : Except PyErr Unit :=
  if pyStrip s = "" then
    .error (.valueError ("Argument " ++ name ++ " cannot be empty or whitespace!"))
  else .ok ()

/-! ## The DOM collaborator (bs4)

The repository delegates HTML parsing to BeautifulSoup and only uses a
small surface of it: `find_all` over a list of tag names, `find` of a
single tag, `get_text(separator, strip=True)`, truthiness of `soup.body`,
and `decompose` of noise subtrees.  `Node` models the parsed tree (the
`html.parser` builder synthesizes no `<html>`/`<body>` wrapper, so a parsed
fragment is a `[document]` root whose children are the fragment's top-level
nodes), and the functions below model those operations. -/

mutual
/-- A node of the parse tree: a text node or an element with a tag name
(lowercased, as bs4 stores it) and children. -/
inductive Node where
  | text : String → Node
  | elem : String → Forest → Node

/-- A sequence of sibling nodes. -/
inductive Forest where
  | nil : Forest
  | cons : Node → Forest → Forest
end

/-- The tag name of a node (empty for a text node). -/
def Node.tag : Node → String
  | .text _ => ""
  | .elem t _ => t

mutual
/-- All text fragments below a node, in document order (bs4 `strings`). -/
def Node.strings : Node → List String
  | .text s => [s]
  | .elem _ cs => Forest.strings cs

/-- All text fragments below a forest, in document order. -/
def Forest.strings : Forest → List String
  | .nil => []
  | .cons n ns => Node.strings n ++ Forest.strings ns
end

/-- bs4 `get_text(separator, strip=True)`: every descendant text fragment is
stripped, empty fragments are dropped, and the rest are joined with the
separator. -/
def getText (sep : String) (n : Node) : String :=
  pyJoin sep (((Node.strings n).map pyStrip).filter (fun s => s ≠ ""))

mutual
/-- The matches contributed by one node: itself when its tag is listed, then
its matching descendants (document pre-order, as bs4 `find_all` yields). -/
def Node.findAllSelf (names : List String) : Node → List Node
  | .text _ => []
  | .elem t cs =>
      (if names.contains t then [Node.elem t cs] else []) ++ Forest.findAll names cs

/-- The matches below a forest, in document order. -/
def Forest.findAll (names : List String) : Forest → List Node
  | .nil => []
  | .cons n ns => Node.findAllSelf names n ++ Forest.findAll names ns
end

/-- bs4 `find_all(names)` called on a node: its matching descendants in
document order (the node itself is not a candidate, matching bs4's
behaviour when called on the soup object). -/
def Node.findAll (names : List String) : Node → List Node
  | .text _ => []
  | .elem _ cs => Forest.findAll names cs

/-- bs4 `soup.body` / `soup.find("body")`: the first descendant element named
`body` in document order, when there is one. -/
def Node.findBody (n : Node) : Option Node :=
  (Node.findAll ["body"] n).head?

/-- The non-content tags both `strip_noise` implementations remove
(converters.py:237-239, parsers.py:143-145). -/
def noiseTags : List String :=
  ["script", "style", "noscript", "svg", "canvas", "iframe", "form"]

mutual
/-- `strip_noise` applied below a node: every subtree rooted at a noise tag is
decomposed (removed), as `tag.decompose()` does on bs4's tree. -/
def Node.stripNoise : Node → Node
  | .text s => .text s
  | .elem t cs => .elem t (Forest.stripNoise cs)

/-- `strip_noise` applied to a forest of siblings. -/
def Forest.stripNoise : Forest → Forest
  | .nil => .nil
  | .cons n ns =>
      match n with
      | .text s => .cons (.text s) (Forest.stripNoise ns)
      | .elem t cs =>
          if noiseTags.contains t then Forest.stripNoise ns
          else .cons (.elem t (Forest.stripNoise cs)) (Forest.stripNoise ns)
end

/-- Singleton helper: the forest holding the nodes of a list, in order. -/
def Forest.ofList : List Node → Forest
  | [] => .nil
  | n :: ns => .cons n (Forest.ofList ns)

example :
    getText " " (.elem "p" (.cons (.text " A ") (.cons (.text "B") .nil))) = "A B" := by
  rfl

example :
    Node.findAll ["p"] (.elem "[document]"
      (.cons (.elem "p" (.cons (.text "A") .nil))
        (.cons (.elem "p" (.cons (.text "B") .nil)) .nil)))
      = [.elem "p" (.cons (.text "A") .nil), .elem "p" (.cons (.text "B") .nil)] := by
  rfl

/-! ## Extraction strategies (src/extractors.py) -/

/-- The outcome of calling a Python strategy method: it either raised an
exception or returned a value (Python `None` is `returned none`). -/
inductive StratRes where
  | raised : PyErr → StratRes
  | returned : Option String → StratRes
deriving DecidableEq, Repr

/-- The body of `HeuristicExtractor.extract` (extractors.py:97-103) up to its
`except` clause: validate `html` with the falsy guard, take each
paragraph's `get_text(separator=' ', strip=True)` over the parsed document
`doc`, and join the truthy ones with the empty separator.  `html` and `doc`
stand for the raw string and its bs4 parse. -/
def heuristicExtractBody (html : String) (doc : Node) : Except PyErr String := do
  throwIfFalsy "html" html
  let paragraphs := (Node.findAll ["p"] doc).map (getText " ")
  pure (pyJoin "" (paragraphs.filter (fun x => pyTruthy x)))

/-- `HeuristicExtractor.extract` (extractors.py:97-110): the body wrapped in
the catch-all `except`, which shows an error dialog and falls off the end of
the method, returning None. -/
def heuristicExtract (html : String) (doc : Node) : StratRes :=
  match heuristicExtractBody html doc with
  | .ok v => .returned (some v)
  | .error _ => .returned none

/-- The body of `ReadabilityExtractor.extract` (extractors.py:127-136): the
first `<article>` element's text when present, the whole document's text
otherwise. -/
def readabilityExtractBody (html : String) (doc : Node) : Except PyErr String := do
  throwIfFalsy "html" html
  match (Node.findAll ["article"] doc).head? with
  | some a => pure (getText " " a)
  | none => pure (getText " " doc)

/-- `ReadabilityExtractor.extract` (extractors.py:127-143) with its catch-all
`except` (dialog, then implicit None). -/
def readabilityExtract (html : String) (doc : Node) : StratRes :=
  match readabilityExtractBody html doc with
  | .ok v => .returned (some v)
  | .error _ => .returned none

/-- An extraction strategy as `CompositeExtractor` sees it: any object with an
`extract(html)` method over the raw string and its parse. -/
abbrev ExtStrategy := String → Node → StratRes

/-- The success test at extractors.py:164 — `if text and text.strip():` — on a
strategy's returned value: truthy and not whitespace-only. -/
def winsExt : Option String → Bool
  | none => false
  | some s => pyTruthy s && pyTruthy (pyStrip s)

/-- The loop of `CompositeExtractor.extract` (extractors.py:162-166): each
strategy in order; the first whose result passes `winsExt` is returned; an
exception from a strategy propagates out of the loop; `""` is returned when
the list is exhausted. -/
def compositeExtractGo (html : String) (doc : Node) :
    List ExtStrategy → Except PyErr (Option String)
  | [] => pure (some "")
  | s :: rest =>
      match s html doc with
      | .raised e => .error e
      | .returned t => if winsExt t then pure t else compositeExtractGo html doc rest

/-- The body of `CompositeExtractor.extract` (extractors.py:159-166): the falsy
guard on `html`, then the loop. -/
def compositeExtractBody (strats : List ExtStrategy) (html : String) (doc : Node) :
    Except PyErr (Option String) := do
  throwIfFalsy "html" html
  compositeExtractGo html doc strats

/-- `CompositeExtractor.extract` (extractors.py:159-173) with its catch-all
`except` (dialog, then implicit None). -/
def compositeExtract (strats : List ExtStrategy) (html : String) (doc : Node) : StratRes :=
  match compositeExtractBody strats html doc with
  | .ok v => .returned v
  | .error _ => .returned none

/-! ## Conversion strategies (src/converters.py and the older revision in
src/parsers.py) -/

/-- The block-level tags both `SoupFallbackConverter.convert` revisions walk
(converters.py:279-281, parsers.py:180-181). -/
def blockTags : List String :=
  ["h1", "h2", "h3", "h4", "h5", "h6", "p", "li", "blockquote", "pre", "code"]

/-- Heading level detection of converters.py:288-294: the tag's numeric suffix
when `tag[1:]` is all digits, default 2. -/
def headingLevel (tag : String) : Nat :=
  if tag.length > 1 && pyIsDigit (tag.drop 1) then pyDigitsToNat (tag.drop 1) else 2

/-- Heading level detection of parsers.py:188: `int(name[1]) if
name[1:].isdigit() else 2` — only the first digit is read. -/
def headingLevelP (tag : String) : Nat :=
  if pyIsDigit (tag.drop 1) then pyDigitsToNat ((tag.drop 1).take 1) else 2

/-- The blockquote rendering shared by both revisions (converters.py:298-300,
parsers.py:193-196): a `"> "` marker per non-blank line. -/
def quoteBlock (txt : String) : String :=
  pyJoin "\n"
    (((pySplitLines txt).filter (fun l => pyTruthy (pyStrip l))).map (fun l => "> " ++ l))

/-- The block text one walked element contributes (converters.py:282-302,
identical classification in parsers.py:182-198 up to the heading-level
function): skipped when its text is empty after stripping, otherwise a
heading marker / list dash / quote marker / plain paragraph. -/
def blockOf (level : String → Nat) (el : Node) : Option String :=
  let txt := getText " " el
  if txt = "" then none
  else
    let tag := el.tag
    some
      (if pyStartsWith tag "h" then
        String.mk (List.replicate (level tag) '#') ++ " " ++ txt
      else if tag = "li" then "- " ++ txt
      else if tag = "blockquote" then quoteBlock txt
      else txt)

/-- The `self.blocks` entries one convert call appends while walking `body`. -/
def soupBlocks (level : String → Nat) (body : Node) : List String :=
  (Node.findAll blockTags body).filterMap (blockOf level)

/-- The scratch state a `SoupFallbackConverter` instance carries across calls:
its `blocks` attribute (`__init__` sets it to `[]`). -/
structure SoupState where
  blocks : List String
deriving DecidableEq, Repr

/-- `SoupFallbackConverter.convert` of converters.py:248-319: validate `html`
with the strict guard, parse (the `doc` argument), reset `self.blocks`,
strip noise from the private parse, walk block elements under `body` —
falling back to the whole document when there is no `<body>` element
(converters.py:277) — and join the collected blocks with blank lines; when
no blocks were found, the cleaned body's text joined by single newlines is
returned instead.  Every error is caught and None returned.  The function
yields the updated instance state next to the outcome. -/
def soupConvertC (st : SoupState) (html : String) (doc : Node) : SoupState × StratRes :=
  match throwIfBlank "html" html with
  | .error _ => (st, .returned none)
  | .ok _ =>
      let cleaned := Node.stripNoise doc
      let body := (Node.findBody cleaned).getD cleaned
      let blocks := soupBlocks headingLevel body
      if blocks = [] then ({ blocks := blocks }, .returned (some (getText "\n" body)))
      else ({ blocks := blocks }, .returned (some (pyJoin "\n\n" blocks)))

/-- `SoupFallbackConverter.convert` of parsers.py:154-209, the older revision:
the falsy guard, noise stripping, then — unlike converters.py — `self.blocks`
is never reset, so the walked blocks are appended to whatever earlier calls
left there; a document with no `<body>` returns the whole cleaned document's
text without touching `blocks` (parsers.py:176-178). -/
def soupConvertP (st : SoupState) (html : String) (doc : Node) : SoupState × StratRes :=
  match throwIfFalsy "html" html with
  | .error _ => (st, .returned none)
  | .ok _ =>
      let cleaned := Node.stripNoise doc
      match Node.findBody cleaned with
      | none => (st, .returned (some (getText "\n" cleaned)))
      | some body =>
          let blocks := st.blocks ++ soupBlocks headingLevelP body
          if blocks = [] then ({ blocks := blocks }, .returned (some (getText "\n" body)))
          else ({ blocks := blocks }, .returned (some (pyJoin "\n\n" blocks)))

/-- `Html2TextConverter.convert` (converters.py:149-193): the strict guard,
then delegation to the optional html2text collaborator — `hasLib` is whether
the import succeeded, `handle` its `HTML2Text.handle` — whose result is
stripped; a missing collaborator raises RuntimeError inside the body; the
wrapper catches everything, shows a dialog and returns None. -/
def html2textConvert (hasLib : Bool) (handle : String → String) (html : String) : StratRes :=
  match (do
      throwIfBlank "html" html
      if hasLib then pure (pyStrip (handle html))
      else Except.error (.runtimeError "html2text is not installed; cannot convert")
    : Except PyErr String) with
  | .ok md => .returned (some md)
  | .error _ => .returned none

/-- A conversion strategy as the composites see it: the strategy's class
display name (used only in diagnostics) next to its `convert` method. -/
abbrev ConvStrategy := String × (String → StratRes)

/-- The success test at converters.py:376 — `if md:` — plain Python
truthiness: any non-None, non-empty string wins, whitespace-only included. -/
def truthyOpt : Option String → Bool
  | none => false
  | some s => pyTruthy s

/-- The loop of `CompositeMarkdownConverter.convert` (converters.py:373-381):
a strategy that raises contributes one `"Name: error"` diagnostic and the
loop continues; a truthy result returns at once; a falsy result (None or
`""`) just moves on, contributing no diagnostic.  An exhausted loop stands
for converters.py:383-386: the aggregate RuntimeError is raised there — and
caught by the method's own handler at converters.py:387-393, which shows a
dialog and returns None. -/
def compositeConvertGo (html : String) (errors : List String) :
    List ConvStrategy → List String × Option String
  | [] => (errors, none)
  | (name, c) :: rest =>
      match c html with
      | .raised e => compositeConvertGo html (errors ++ [name ++ ": " ++ errText e]) rest
      | .returned md =>
          if truthyOpt md then (errors, md) else compositeConvertGo html errors rest

/-- `CompositeMarkdownConverter.convert` of converters.py:346-393: the strict
guard on `html` runs before `self.errors` is reset, so a blank input leaves
the prior diagnostics in place; otherwise the diagnostics are reset and the
loop runs.  The returned pair is the final `self.errors` state and the value
the call returns (None both for a blank input and when every strategy
failed, the aggregate error having been swallowed by the method itself). -/
def compositeConvert (priorErrors : List String) (strats : List ConvStrategy)
    (html : String) : List String × Option String :=
  match throwIfBlank "html" html with
  | .error _ => (priorErrors, none)
  | .ok _ => compositeConvertGo html [] strats

/-- The loop of the older `CompositeMarkdownConverter.convert`
(parsers.py:263-270): `return c.convert(html)` — the first strategy that
does not raise has its result returned unconditionally, None included. -/
def compositeConvertPGo (html : String) (errors : List String) :
    List ConvStrategy → List String × Option String
  | [] => (errors, none)
  | (name, c) :: rest =>
      match c html with
      | .raised e => compositeConvertPGo html (errors ++ [name ++ ": " ++ errText e]) rest
      | .returned md => (errors, md)

/-- `CompositeMarkdownConverter.convert` of parsers.py:244-277: no guard on
`html` and no reset of `self.errors`; the exhausted-loop RuntimeError is
likewise caught by the method's own handler, which returns None. -/
def compositeConvertP (priorErrors : List String) (strats : List ConvStrategy)
    (html : String) : List String × Option String :=
  compositeConvertPGo html priorErrors strats

/-! ## The Result record (src/core.py) -/

/-- A Python string-to-string dict as an association list in insertion
order. -/
abbrev Dict := List (String × String)

/-- `core.throw_if` (core.py:49-70): None and empty/whitespace-only strings
are invalid. -/
def coreThrowIf (name : String) : Option String → Except PyErr Unit
  | none => .error (.valueError ("Argument " ++ name ++ " cannot be None"))
  | some s =>
      if pyStrip s = "" then
        .error (.valueError ("Argument " ++ name ++ " cannot be an empty string"))
      else .ok ()

/-- `core.Result` (core.py:72-181): the immutable record of one fetch
outcome. -/
structure Result where
  url : String
  status_code : Int
  text : String
  html : Option String
  headers : Dict
deriving DecidableEq, Repr

/-- The body of `Result.__init__` (core.py:105-112) run with the values its
parameters received: the strict guard on `url`, `text or ""`, and
`dict(headers or {})`. -/
def resultInit (url : String) (status_code : Int) (text : Option String)
    (html : Option String) (headers : Option Dict) : Except PyErr Result := do
  coreThrowIf "url" (some url)
  pure { url := url, status_code := status_code, text := text.getD "", html := html,
         headers := headers.getD [] }

/-- The parameter names of `Result.__init__` (core.py:97-104), `self`
excluded. -/
def resultInitParams : List String := ["url", "status_code", "text", "html", "headers"]

/-- Python keyword binding: a call is bound only when every keyword name is a
parameter name; otherwise TypeError is raised before the body runs. -/
def acceptsKwnames (params kwnames : List String) : Bool :=
  kwnames.all (fun k => params.contains k)

/-- The keyword names of the `Result(...)` calls in src/fetchers.py — lines
223-224, 346-347 and 366-367 all write
`Result(url=..., status=..., text=..., html=..., headers=...)`. -/
def fetchResultKwnames : List String := ["url", "status", "text", "html", "headers"]

/-- A `Result(...)` call made with keyword names `kwnames` carrying the url,
status, text, html and headers values the call site passes: when binding
succeeds the constructor body runs on them; when a keyword name is not a
parameter of `Result.__init__`, Python raises TypeError. -/
def callResult (kwnames : List String) (url : String) (status : Int) (text : String)
    (html : Option String) (headers : Dict) : Except PyErr Result :=
  if acceptsKwnames resultInitParams kwnames then
    resultInit url status (some text) html (some headers)
  else
    .error (.typeError "Result.init got an unexpected keyword argument")

/-! ## Fetch strategies (src/fetchers.py) -/

/-- A requests-style response, as the HTTP collaborator returns it. -/
structure HTTPResponse where
  status_code : Int
  text : String
  url : String
  headers : Dict
deriving DecidableEq, Repr

/-- `Response.raise_for_status` (fetchers.py:217): raises for a 4xx/5xx
status. -/
def raiseForStatus (r : HTTPResponse) : Except PyErr Unit :=
  if 400 ≤ r.status_code then
    .error (.runtimeError ("HTTP error " ++ toString r.status_code))
  else .ok ()

/-- `WebFetcher.html_to_text` (fetchers.py:238-274): its own falsy guard on
`html`, then regex substitutions delegated to the `re` collaborator,
modelled by the parameter `textOf`; the method's `except` re-raises. -/
def htmlToText (textOf : String → String) (html : String) : Except PyErr String := do
  throwIfFalsy "html" html
  pure (textOf html)

/-- `WebFetcher.fetch` (fetchers.py:198-236): the falsy guard on `url`, a GET
through the HTTP collaborator, `raise_for_status`, text extraction, then the
`Result(...)` call with the keyword names the call site writes; the method's
`except` shows a dialog and re-raises, so every error propagates. -/
def webFetcherFetch (get : String → Except PyErr HTTPResponse) (textOf : String → String)
    (url : String) : Except PyErr Result := do
  throwIfFalsy "url" url
  let resp ← get url
  raiseForStatus resp
  let html := resp.text
  let text ← htmlToText textOf html
  callResult fetchResultKwnames resp.url resp.status_code text (some html) resp.headers

/-- The collaborators a `WebCrawler` may call: the HTTP client, the regex
text extraction, the optional crawl4ai library (`none` when the import at
fetchers.py:57-60 failed; `f url = .ok none` models a payload without usable
content, which falls through without an error), the `use_playwright` flag
and the Playwright renderer. -/
structure CrawlEnv where
  get : String → Except PyErr HTTPResponse
  textOf : String → String
  crawl4ai : Option (String → Except PyErr (Option String))
  usePlaywright : Bool
  render : String → Except PyErr String

/-- `WebCrawler.fetch` (fetchers.py:322-384): the falsy guard, then the
crawl4ai attempt with its failures swallowed (fetchers.py:339-352), then the
requests attempt through `WebFetcher.fetch` with its failures swallowed
(fetchers.py:354-359), then — only when `use_playwright` — the Playwright
attempt (fetchers.py:361-372); an exhausted chain raises the aggregate
RuntimeError of fetchers.py:375, which the method's `except` re-raises.  The
first component lists which strategies' collaborators were actually
invoked. -/
def webCrawlerFetch (env : CrawlEnv) (url : String) : List String × Except PyErr Result :=
  match throwIfFalsy "url" url with
  | .error e => ([], .error e)
  | .ok _ =>
      let failAll : Except PyErr Result :=
        .error (.runtimeError ("Failed to fetch URL via crawl4ai/requests/playwright: " ++ url))
      let step1 : List String × Option Result :=
        match env.crawl4ai with
        | none => ([], none)
        | some f =>
            (["crawl4ai"],
              match (do
                  match (← f url) with
                  | some content => do
                      let text ← htmlToText env.textOf content
                      let r ← callResult fetchResultKwnames url 200 text (some content) []
                      pure (some r)
                  | none => pure none
                : Except PyErr (Option Result)) with
              | .ok r => r
              | .error _ => none)
      match step1 with
      | (a1, some r) => (a1, .ok r)
      | (a1, none) =>
          match webFetcherFetch env.get env.textOf url with
          | .ok r => (a1 ++ ["requests"], .ok r)
          | .error _ =>
              let a2 := a1 ++ ["requests"]
              if env.usePlaywright then
                match (do
                    let content ← env.render url
                    let text ← htmlToText env.textOf content
                    callResult fetchResultKwnames url 200 text (some content) []
                  : Except PyErr Result) with
                | .ok r => (a2 ++ ["playwright"], .ok r)
                | .error _ => (a2 ++ ["playwright"], failAll)
              else (a2, failAll)

/-! ## The Markdown writer (src/writers.py) -/

/-- The front-matter block `MarkdownWriter.write` builds (writers.py:148-151). -/
def frontMatter (r : Result) : String :=
  "---\n" ++ "source_url: " ++ r.url ++ "\n" ++ "status_code: " ++ toString r.status_code
    ++ "\n" ++ "---\n\n"

/-- The body part: writers.py:153 appends a newline unless the text already
ends in one. -/
def mdBody (t : String) : String := if pyEndsWith t "\n" then t else t ++ "\n"

/-- The full file content `MarkdownWriter.write` hands to `write_text`
(writers.py:148-154). -/
def markdownWriteContent (r : Result) : String := frontMatter r ++ mdBody r.text

/-- How many consecutive newline characters a string ends with. -/
def trailingNewlines (s : String) : Nat :=
  (s.data.reverse.takeWhile (fun c => c = '\n')).length

/-! ## Result constructed against a heap of dict objects

Whether `Result.__init__` copies the headers dict it is given, and whether
`to_dict` hands back a fresh copy, are aliasing questions, so for them dicts
live in an explicit store and are passed by reference. -/

/-- Python `d[k] = v`: overwrite the existing entry in place, append
otherwise. -/
def dictSet (d : Dict) (k v : String) : Dict :=
  if d.any (fun p => p.1 = k) then d.map (fun p => if p.1 = k then (k, v) else p)
  else d ++ [(k, v)]

/-- A store of dict objects; a `Nat` index is an object reference. -/
structure Heap where
  dicts : List Dict
deriving Repr

/-- Allocate a new dict object holding the entries `d`. -/
def Heap.alloc (h : Heap) (d : Dict) : Heap × Nat :=
  (⟨h.dicts ++ [d]⟩, h.dicts.length)

/-- Read a dict object. -/
def Heap.read (h : Heap) (r : Nat) : Dict := h.dicts.getD r []

/-- Mutate a dict object in place: `d[k] = v` on the object `r` points to. -/
def Heap.mutate (h : Heap) (r : Nat) (k v : String) : Heap :=
  ⟨h.dicts.set r (dictSet (h.dicts.getD r []) k v)⟩

/-- `core.Result` with its `headers` attribute held as a heap reference. -/
structure ResultObj where
  url : String
  status_code : Int
  text : String
  html : Option String
  headersRef : Nat
deriving Repr

/-- The body of `Result.__init__` (core.py:105-112) against the heap: the
strict guard on `url`, `text or ""`, and `self.headers = dict(headers or {})`
— a new dict object allocated with a copy of the argument object's
entries. -/
def resultInitH (h : Heap) (url : String) (status_code : Int) (text : Option String)
    (html : Option String) (headers : Option Nat) : Except PyErr (Heap × ResultObj) := do
  coreThrowIf "url" (some url)
  let src := match headers with
    | some r => h.read r
    | none => []
  let (h2, ref) := h.alloc src
  pure (h2, { url := url, status_code := status_code, text := text.getD "", html := html,
              headersRef := ref })

/-- The headers entry of `Result.to_dict` (core.py:153-159): `dict(self.headers)`
— a fresh copy allocated on the heap; the reference returned to the caller
is the new object's. -/
def resultToDictHeaders (h : Heap) (r : ResultObj) : Heap × Nat :=
  h.alloc (h.read r.headersRef)

/-! ## Concrete fixtures -/

/-- Singleton paragraph element, `<p>t</p>`. -/
def mkP (t : String) : Node := .elem "p" (.cons (.text t) .nil)

/-- The bs4 `html.parser` tree of
`"<h2>Title</h2><p>Body text</p><ul><li>One</li></ul>"`: a `[document]` root
over the three fragments (`html.parser` synthesizes no `<html>`/`<body>`
wrapper). -/
def docC6 : Node :=
  .elem "[document]" (Forest.ofList
    [.elem "h2" (.cons (.text "Title") .nil),
     .elem "p" (.cons (.text "Body text") .nil),
     .elem "ul" (.cons (.elem "li" (.cons (.text "One") .nil)) .nil)])

/-- The bs4 `html.parser` tree of `"<body><p>A</p></body>"`: here the
`<body>` element is explicit in the markup, so the parse has one. -/
def docBodyA : Node :=
  .elem "[document]"
    (.cons (.elem "body" (.cons (mkP "A") .nil)) .nil)

/-- A crawler environment in which every transport succeeds: the HTTP
collaborator answers 200 with a small page, and crawl4ai is installed and
returns rendered content. -/
def envOK : CrawlEnv where
  get := fun _ =>
    .ok { status_code := 200, text := "<p>ok</p>", url := "https://example.com/",
          headers := [] }
  textOf := fun _ => "ok"
  crawl4ai := some (fun _ => .ok (some "<p>ok</p>"))
  usePlaywright := false
  render := fun _ => .error (.runtimeError "unused")

/-- A crawler environment with no optional collaborators and a failing
network, used to observe which strategies a call attempts. -/
def envDown : CrawlEnv where
  get := fun _ => .error (.runtimeError "connection error")
  textOf := fun s => s
  crawl4ai := none
  usePlaywright := false
  render := fun _ => .error (.runtimeError "Playwright is not installed or failed to import.")

/-! ## Claims -/

/-- C1 (code_bug).  The claim says a fetch chain with a succeeding strategy
returns a `Result` whose `status_code` is the strategy's reported status.
The code cannot: every `Result(...)` call in src/fetchers.py passes the
keyword `status`, but `Result.__init__` (core.py:97-104) has no such
parameter — its name is `status_code` — so the construction raises
TypeError.  Evaluated at a URL whose direct HTTP GET succeeds with
status 200 and whose crawl4ai render also succeeds, `WebFetcher.fetch`
raises TypeError instead of returning a Result, and `WebCrawler.fetch`
swallows both TypeErrors, exhausts its chain and raises the aggregate
RuntimeError. -/
theorem C1_successful_strategy_still_raises :
    webFetcherFetch envOK.get envOK.textOf "https://example.com/"
      = .error (.typeError "Result.init got an unexpected keyword argument")
    ∧ webCrawlerFetch envOK "https://example.com/"
      = (["crawl4ai", "requests"],
         .error (.runtimeError
           "Failed to fetch URL via crawl4ai/requests/playwright: https://example.com/")) := by
  constructor
  · rfl
  · rfl

/-- C4 amended.  An empty URL is falsy, so `throw_if` at fetchers.py:336
raises ValueError at once: `WebCrawler.fetch` fails before any strategy's
collaborator is invoked (the attempt list is empty), whatever strategies
are configured. -/
theorem C4_empty_url_fails_before_any_strategy (env : CrawlEnv) :
    webCrawlerFetch env "" = ([], .error (.valueError "Argument url cannot be empty!")) := rfl

/-- C4 counterexample.  A whitespace-only URL is truthy, so the guard of
fetchers.py:62-73 does not fire: the requests strategy is attempted (real
I/O), and the call ends in the aggregate RuntimeError, not an
invalid-argument ValueError — against the claim that fetch fails
immediately with `InvalidArgument` without attempting any strategy. -/
theorem C4_whitespace_url_attempts_strategies :
    (webCrawlerFetch envDown " ").1 = ["requests"]
    ∧ webCrawlerFetch envDown " "
        = (["requests"],
           .error (.runtimeError "Failed to fetch URL via crawl4ai/requests/playwright:  ")) := by
  constructor
  · rfl
  · rfl

/-- C5 amended.  The converters.py revision of
`SoupFallbackConverter.convert` resets `self.blocks` on every call
(converters.py:271), so its outcome is independent of the instance state it
starts from; in particular running the same instance twice on the same
markup yields the same output both times. -/
theorem C5_converters_convert_state_independent (st1 st2 : SoupState) (html : String)
    (doc : Node) :
    (soupConvertC st1 html doc).2 = (soupConvertC st2 html doc).2
    ∧ (soupConvertC (soupConvertC st1 html doc).1 html doc).2
        = (soupConvertC st1 html doc).2 := by
  cases h : throwIfBlank "html" html <;>
    simp [soupConvertC, h]

/-- C5 counterexample.  The parsers.py revision never resets `self.blocks`
(parsers.py:169-201 appends to the list `__init__` created), so a second
`convert` of the same instance on the same markup returns the blocks
duplicated: on `"<body><p>A</p></body>"` the first call returns `"A"`, the
second `"A\n\nA"` — the strategy is not a pure function of its input
markup. -/
theorem C5_parsers_convert_not_idempotent :
    (soupConvertP { blocks := [] } "<body><p>A</p></body>" docBodyA).2
        = .returned (some "A")
    ∧ (soupConvertP (soupConvertP { blocks := [] } "<body><p>A</p></body>" docBodyA).1
          "<body><p>A</p></body>" docBodyA).2
        = .returned (some "A\n\nA") := by
  constructor
  · rfl
  · rfl

/-- C6 (confirmed).  The Structural-Fallback-Converter
(`SoupFallbackConverter.convert`, converters.py:248-311) on
`"<h2>Title</h2><p>Body text</p><ul><li>One</li></ul>"` returns exactly
`"## Title\n\nBody text\n\n- One"`: the `h2` heading gets two `#`
characters, the list item a leading `"- "`, and the blocks are joined by a
blank line; a heading tag with no usable numeric suffix would default to
level 2. -/
theorem C6_structural_fallback_scenario :
    (soupConvertC { blocks := [] }
        "<h2>Title</h2><p>Body text</p><ul><li>One</li></ul>" docC6).2
      = .returned (some "## Title\n\nBody text\n\n- One")
    ∧ headingLevel "header" = 2 := by
  constructor
  · rfl
  · rfl

/-- C8 counterexample.  The writer appends a newline only when the body does
not already end in one (writers.py:153), so a `Result` whose text ends in
two newlines is written with two trailing newlines, not exactly one. -/
theorem C8_two_trailing_newlines_preserved :
    trailingNewlines
      (markdownWriteContent
        { url := "http://x", status_code := 200, text := "hi\n\n", html := none,
          headers := [] }) = 2 := by
  rfl

/-- The markdown body always ends in a newline: its character list splits off
a final `'\n'`. -/
lemma mdBody_data_split (t : String) : ∃ l, (mdBody t).data = l ++ ['\n'] := by
  unfold mdBody
  by_cases h : pyEndsWith t "\n" = true
  · obtain ⟨pre, hpre⟩ := List.isSuffixOf_iff_suffix.mp h
    exact ⟨pre, by simp [h, ← hpre]⟩
  · exact ⟨t.data, by simp [h]⟩

/-- A string whose characters end in a newline has at least one trailing
newline. -/
lemma one_le_trailingNewlines (s : String) (l : List Char) (h : s.data = l ++ ['\n']) :
    1 ≤ trailingNewlines s := by
  unfold trailingNewlines
  rw [h, List.reverse_append]
  simp [List.takeWhile]

/-- C8 amended.  The written content is the front-matter block — `---`,
`source_url`, `status_code`, `---`, blank line — followed by the body, where
writers.py:153 appends a newline only when the text does not already end in
one: the content always ends in at least one newline (exactly one when the
text does not already end in newlines), and the concrete
`Result(url="http://x", status_code=200, text="hi")` scenario produces
exactly the claimed string. -/
theorem C8_front_matter_content (r : Result) :
    markdownWriteContent
        { url := "http://x", status_code := 200, text := "hi", html := none, headers := [] }
      = "---\nsource_url: http://x\nstatus_code: 200\n---\n\nhi\n"
    ∧ 1 ≤ trailingNewlines (markdownWriteContent r) := by
  constructor
  · rfl
  · obtain ⟨l, hl⟩ := mdBody_data_split r.text
    exact one_le_trailingNewlines _ ((frontMatter r).data ++ l)
      (by simp [markdownWriteContent, hl])

/-- A chain of raising conversion strategies appends one diagnostic per
strategy, in order, and exhausts. -/
lemma compositeConvertGo_all_raised (html : String) (fails : List (String × PyErr))
    (errors : List String) :
    compositeConvertGo html errors
        (fails.map (fun p => (p.1, fun _ => .raised p.2)))
      = (errors ++ fails.map (fun p => p.1 ++ ": " ++ errText p.2), none) := by
  induction fails generalizing errors with
  | nil => simp [compositeConvertGo]
  | cons p rest ih => simp [compositeConvertGo, ih]

/-- C2 amended.  When every configured conversion strategy fails by raising,
the converters.py composite records one `"ClassName: error"` diagnostic per
strategy, in configured order — but the aggregate RuntimeError built from
them is caught by the method's own handler, so the call returns None to the
caller rather than raising; strategies that fail by returning a falsy value
contribute no diagnostic at all (see the counterexample), and the
extraction composite never raises in the first place. -/
theorem C2_all_raising_chain_diagnostics (fails : List (String × PyErr)) (html : String)
    (hok : pyStrip html ≠ "") :
    compositeConvert [] (fails.map (fun p => (p.1, fun _ => .raised p.2))) html
      = (fails.map (fun p => p.1 ++ ": " ++ errText p.2), none) := by
  simp [compositeConvert, throwIfBlank, hok, compositeConvertGo_all_raised]

/-- C2 witness: two raising strategies yield two ordered diagnostics and a
swallowed (returned-None) outcome. -/
theorem C2_all_raising_chain_diagnostics_witness :
    compositeConvert []
        ([("A", PyErr.runtimeError "boom"), ("B", PyErr.valueError "empty")].map
          (fun p => (p.1, fun _ => .raised p.2))) "<p>x</p>"
      = (["A: boom", "B: empty"], none) := by
  have h := C2_all_raising_chain_diagnostics
    [("A", PyErr.runtimeError "boom"), ("B", PyErr.valueError "empty")] "<p>x</p>"
    (by decide)
  exact h

/-- C2 counterexample.  A chain of two failing strategies — the first fails
by returning None (as every converter whose own handler caught an internal
error does), the second by raising — produces one diagnostic, not one per
configured strategy, and the call returns None instead of raising an
aggregate error. -/
theorem C2_diagnostics_not_one_per_strategy :
    compositeConvert []
        [("A", fun _ => .returned none), ("B", fun _ => .raised (.runtimeError "boom"))]
        "<p>x</p>"
      = (["B: boom"], none)
    ∧ (["B: boom"] : List String).length ≠ 2 := by
  constructor
  · rfl
  · decide

/-- The ordering rule the spec states for the Composite Strategy Runner,
written from its words: strategies are taken in order, the first output that
is non-empty and not whitespace-only wins, every failing output is skipped,
and an exhausted list yields `""`. -/
def firstAcceptable : List (Option String) → Option String
  | [] => some ""
  | o :: rest => if winsExt o then o else firstAcceptable rest

/-- The extraction composite's loop agrees with `firstAcceptable` on
non-raising strategies. -/
lemma compositeExtractGo_pure_outputs (html : String) (doc : Node)
    (outs : List (Option String)) :
    compositeExtractGo html doc (outs.map (fun o => fun _ _ => .returned o))
      = .ok (firstAcceptable outs) := by
  induction outs with
  | nil => rfl
  | cons o rest ih =>
      by_cases h : winsExt o = true <;>
        simp [compositeExtractGo, firstAcceptable, h, ih, pure, Except.pure]

/-- An accepted output is never whitespace-only: only the exhausted-list
`""` marker can be blank. -/
lemma firstAcceptable_not_blank (outs : List (Option String)) :
    ∀ t, firstAcceptable outs = some t → pyStrip t ≠ "" ∨ t = "" := by
  induction outs with
  | nil => intro t ht; right; simpa [firstAcceptable] using ht.symm
  | cons o rest ih =>
      intro t ht
      by_cases h : winsExt o = true
      · left
        rw [firstAcceptable, if_pos h] at ht
        subst ht
        exact (by simpa [winsExt, pyTruthy] using h : ¬t = "" ∧ ¬pyStrip t = "").2
      · exact ih t (by rwa [firstAcceptable, if_neg h] at ht)

/-- C3 amended.  The extraction composite (`CompositeExtractor.extract`)
evaluates strategies strictly in order and returns the first output that is
non-empty and not whitespace-only, skipping empty and whitespace-only
outputs, and never returns a whitespace-only string as a success (its
all-failed outcome is the bare `""`).  The two conversion composites do not
share this rule: converters.py accepts any truthy string, whitespace-only
included (see the counterexample), and parsers.py returns the first
non-raising strategy's output unconditionally. -/
theorem C3_extractor_order_first_nonblank_wins (outs : List (Option String))
    (html : String) (doc : Node) (hne : html ≠ "") :
    compositeExtract (outs.map (fun o => fun _ _ => .returned o)) html doc
      = .returned (firstAcceptable outs)
    ∧ (∀ t, firstAcceptable outs = some t → pyStrip t ≠ "" ∨ t = "") := by
  refine ⟨?_, firstAcceptable_not_blank outs⟩
  simp [compositeExtract, compositeExtractBody, throwIfFalsy, hne,
    compositeExtractGo_pure_outputs, bind, Except.bind]

/-- C3 witness: a whitespace-only first output is skipped, a None second
output is skipped, and the third, non-blank output wins. -/
theorem C3_extractor_order_witness :
    compositeExtract
        ([some " ", none, some "hi"].map (fun o => fun _ _ => .returned o)) "x"
        (.elem "[document]" .nil)
      = .returned (firstAcceptable [some " ", none, some "hi"])
    ∧ (∀ t, firstAcceptable [some " ", none, some "hi"] = some t →
        pyStrip t ≠ "" ∨ t = "") :=
  C3_extractor_order_first_nonblank_wins [some " ", none, some "hi"] "x"
    (.elem "[document]" .nil) (by decide)

/-- C3 counterexample.  The converters.py composite tests plain truthiness
(`if md:` at converters.py:376), so a strategy returning the whitespace-only
string `" "` wins and the composite returns `" "` as a success — against
the claim that the runner never returns a whitespace-only string. -/
theorem C3_whitespace_success_returned :
    compositeConvert [] [("W", fun _ => .returned (some " "))] "<p>x</p>"
      = ([], some " ")
    ∧ pyStrip " " = "" := by
  constructor
  · rfl
  · rfl

/-- The text of a lone paragraph element is its stripped content. -/
lemma getText_mkP (t : String) : getText " " (mkP t) = pyStrip t := by
  by_cases h : pyStrip t = "" <;>
    simp [getText, mkP, Node.strings, Forest.strings, pyJoin, h]

/-- A document built from paragraph elements yields exactly those elements
under `find_all(["p"])`, in order. -/
lemma findAll_paragraphs (ts : List String) :
    Forest.findAll ["p"] (Forest.ofList (ts.map mkP)) = ts.map mkP := by
  induction ts with
  | nil => rfl
  | cons t rest ih =>
      simp [Forest.ofList, Forest.findAll, Node.findAllSelf, Forest.findAll, mkP, ih]

/-- C7 amended.  For every non-empty HTML input, the Paragraph-Heuristic
extractor concatenates the stripped text of the paragraph elements in
document order with no separator (dropping paragraphs whose text is empty),
and returns the empty string when the document has no paragraph elements;
the regression case `"<p>A</p><p>B</p>"` yields `"AB"`.  (For the empty
input the falsy guard fires first and the extractor returns None — see the
counterexample.) -/
theorem C7_paragraphs_joined_without_separator (html : String) (ts : List String)
    (hne : html ≠ "") :
    heuristicExtract html (.elem "[document]" (Forest.ofList (ts.map mkP)))
      = .returned (some (pyJoin "" ((ts.map pyStrip).filter (fun x => pyTruthy x))))
    ∧ (∀ doc : Node, Node.findAll ["p"] doc = [] →
        heuristicExtract html doc = .returned (some ""))
    ∧ heuristicExtract "<p>A</p><p>B</p>" (.elem "[document]" (Forest.ofList [mkP "A", mkP "B"]))
        = .returned (some "AB") := by
  have hmap : ts.map (getText " " ∘ mkP) = ts.map pyStrip := by
    induction ts with
    | nil => rfl
    | cons t rest ih => simp [Function.comp, getText_mkP]
  refine ⟨?_, ?_, rfl⟩
  · simp [heuristicExtract, heuristicExtractBody, throwIfFalsy, hne, bind, Except.bind,
      Node.findAll, findAll_paragraphs, List.map_map, hmap, pure, Except.pure]
  · intro doc hdoc
    simp [heuristicExtract, heuristicExtractBody, throwIfFalsy, hne, bind, Except.bind,
      hdoc, pyJoin, pure, Except.pure]

/-- C7 witness: three paragraphs — one needing stripping, one empty — are
joined directly, and the concrete parts of the conjunction hold. -/
theorem C7_paragraphs_joined_witness :
    heuristicExtract "x" (.elem "[document]" (Forest.ofList ([" A ", "", "B"].map mkP)))
      = .returned (some (pyJoin ""
          (([" A ", "", "B"].map pyStrip).filter (fun x => pyTruthy x))))
    ∧ (∀ doc : Node, Node.findAll ["p"] doc = [] →
        heuristicExtract "x" doc = .returned (some ""))
    ∧ heuristicExtract "<p>A</p><p>B</p>" (.elem "[document]" (Forest.ofList [mkP "A", mkP "B"]))
        = .returned (some "AB") :=
  C7_paragraphs_joined_without_separator "x" [" A ", "", "B"] (by decide)

/-- C7 counterexample.  On the empty HTML input — which contains no
paragraph elements — the extractor's falsy guard raises, the catch-all
handler swallows the error, and the method returns None, not the empty
string the claim asks for. -/
theorem C7_empty_input_returns_none :
    heuristicExtract "" (.elem "[document]" .nil) = .returned none
    ∧ StratRes.returned none ≠ .returned (some "") := by
  constructor
  · rfl
  · decide

/-- Extraction strategies that all return failing values drive the composite
to its `return ""`. -/
lemma compositeExtractGo_all_fail (html : String) (doc : Node)
    (strats : List ExtStrategy)
    (h : ∀ s ∈ strats, ∃ t, s html doc = .returned t ∧ winsExt t = false) :
    compositeExtractGo html doc strats = .ok (some "") := by
  induction strats with
  | nil => rfl
  | cons s rest ih =>
      obtain ⟨t, hs, hw⟩ := h s (by simp)
      simp [compositeExtractGo, hs, hw, ih (fun u hu => h u (by simp [hu]))]

/-- C9 (confirmed).  No extraction or conversion strategy propagates an
exception: each strategy method wraps its body in a catch-all handler and
returns (None on failure) rather than raising — on every input, empty HTML
included — and the composite extractor returns the empty string when every
configured strategy returns an empty result. -/
theorem C9_strategies_never_raise (html : String) (doc : Node) (hasLib : Bool)
    (handle : String → String) (st : SoupState) (strats : List ExtStrategy)
    (hne : html ≠ "")
    (hempty : ∀ s ∈ strats, ∃ t, s html doc = .returned t ∧ winsExt t = false) :
    (∃ v, heuristicExtract html doc = .returned v)
    ∧ (∃ v, readabilityExtract html doc = .returned v)
    ∧ (∃ v, html2textConvert hasLib handle html = .returned v)
    ∧ (∃ v, (soupConvertC st html doc).2 = .returned v)
    ∧ (∃ v, (soupConvertP st html doc).2 = .returned v)
    ∧ (∃ v, heuristicExtract "" doc = .returned v)
    ∧ compositeExtract strats html doc = .returned (some "") := by
  refine ⟨?_, ?_, ?_, ?_, ?_, ?_, ?_⟩
  · exact match h : heuristicExtractBody html doc with
      | .ok v => ⟨some v, by simp [heuristicExtract, h]⟩
      | .error e => ⟨none, by simp [heuristicExtract, h]⟩
  · exact match h : readabilityExtractBody html doc with
      | .ok v => ⟨some v, by simp [readabilityExtract, h]⟩
      | .error e => ⟨none, by simp [readabilityExtract, h]⟩
  · unfold html2textConvert
    exact match h : (do
        throwIfBlank "html" html
        if hasLib then pure (pyStrip (handle html))
        else Except.error (.runtimeError "html2text is not installed; cannot convert")
      : Except PyErr String) with
      | .ok v => ⟨some v, by simp [h]⟩
      | .error e => ⟨none, by simp [h]⟩
  · unfold soupConvertC
    exact match h : throwIfBlank "html" html with
      | .ok _ => by simp [h]; split <;> simp
      | .error e => ⟨none, by simp [h]⟩
  · unfold soupConvertP
    exact match h : throwIfFalsy "html" html with
      | .ok _ => by
          simp [h]
          cases Node.findBody (Node.stripNoise doc)
          · simp
          · simp
            split <;> simp
      | .error e => ⟨none, by simp [h]⟩
  · exact ⟨none, rfl⟩
  · simp [compositeExtract, compositeExtractBody, throwIfFalsy, hne, bind, Except.bind,
      compositeExtractGo_all_fail html doc strats hempty]

/-- C9 witness: a single strategy returning None on a one-character input;
every strategy call is a returned value and the composite yields `""`. -/
theorem C9_strategies_never_raise_witness :
    (∃ v, heuristicExtract "x" (.elem "[document]" .nil) = .returned v)
    ∧ (∃ v, readabilityExtract "x" (.elem "[document]" .nil) = .returned v)
    ∧ (∃ v, html2textConvert false (fun s => s) "x" = .returned v)
    ∧ (∃ v, (soupConvertC { blocks := [] } "x" (.elem "[document]" .nil)).2 = .returned v)
    ∧ (∃ v, (soupConvertP { blocks := [] } "x" (.elem "[document]" .nil)).2 = .returned v)
    ∧ (∃ v, heuristicExtract "" (.elem "[document]" .nil) = .returned v)
    ∧ compositeExtract [fun _ _ => .returned none] "x" (.elem "[document]" .nil)
        = .returned (some "") :=
  C9_strategies_never_raise "x" (.elem "[document]" .nil) false (fun s => s)
    { blocks := [] } [fun _ _ => .returned none] (by decide)
    (by
      intro s hs
      rw [List.mem_singleton] at hs
      subst hs
      exact ⟨none, rfl, rfl⟩)

/-- C10 (confirmed).  `Result.__init__` stores `dict(headers or {})`
(core.py:112) — a fresh copy of the caller's dict — and `to_dict` returns
`dict(self.headers)` (core.py:158), another fresh copy: mutating the dict
passed to the constructor after construction, or the dict `to_dict`
returned, leaves the Result's headers unchanged; and a Result constructed
with `text=None` carries the empty string (core.py:110). -/
theorem C10_headers_isolated_and_text_default (h : Heap) (url : String) (sc : Int)
    (txt : Option String) (hml : Option String) (ref : Nat) (k v : String)
    (href : ref < h.dicts.length) (hurl : pyStrip url ≠ "") :
    ∃ h2 r, resultInitH h url sc txt hml (some ref) = .ok (h2, r)
      ∧ h2.read r.headersRef = h.read ref
      ∧ (h2.mutate ref k v).read r.headersRef = h2.read r.headersRef
      ∧ ((resultToDictHeaders h2 r).1.mutate (resultToDictHeaders h2 r).2 k v).read
            r.headersRef = h2.read r.headersRef
      ∧ (txt = none → r.text = "") := by
  have hlen : ref ≠ h.dicts.length := Nat.ne_of_lt href
  refine ⟨⟨h.dicts ++ [h.read ref]⟩,
    { url := url, status_code := sc, text := txt.getD "", html := hml,
      headersRef := h.dicts.length }, ?_, ?_, ?_, ?_, ?_⟩
  · simp [resultInitH, coreThrowIf, hurl, Heap.alloc, bind, Except.bind, pure, Except.pure]
  · simp [Heap.read, List.getD]
  · simp [Heap.mutate, Heap.read, List.getD, List.getElem?_set_ne hlen]
  · have hlen2 : h.dicts.length + 1 ≠ h.dicts.length := by omega
    simp only [resultToDictHeaders, Heap.alloc, Heap.mutate, Heap.read, List.getD,
      List.get?_eq_getElem?, List.length_append, List.length_singleton]
    rw [List.getElem?_set_ne hlen2, List.getElem?_append_left (by simp)]
  · intro ht
    simp [ht]

/-- C10 witness: a singleton heap; the constructed Result's headers survive a
mutation of the original dict and of the dict `to_dict` returned, and a
None text becomes `""`. -/
theorem C10_headers_isolated_witness :
    ∃ h2 r, resultInitH ⟨[[("k", "v0")]]⟩ "http://x" 200 none none (some 0) = .ok (h2, r)
      ∧ h2.read r.headersRef = Heap.read ⟨[[("k", "v0")]]⟩ 0
      ∧ (h2.mutate 0 "k" "v1").read r.headersRef = h2.read r.headersRef
      ∧ ((resultToDictHeaders h2 r).1.mutate (resultToDictHeaders h2 r).2 "k" "v1").read
            r.headersRef = h2.read r.headersRef
      ∧ ((none : Option String) = none → r.text = "") :=
  C10_headers_isolated_and_text_default ⟨[[("k", "v0")]]⟩ "http://x" 200 none none 0
    "k" "v1" (by decide) (by decide)

end Soupy
